import Mathlib

/-!
# Lobby lifecycle manager (`internal/core/services/lobby/lobby_manager.go`)

A shallow embedding of `LobbyManager` and of its five methods
`CreateEntityInRedis`, `GetEntityInRedis`, `GetLobbyData`, `CreateLobby`
and `StatusLobby`.

The manager talks to three collaborators that are not part of the file:
the Redis client (`l.Redis.Set`, `l.Redis.Get`), the ECS launcher
(`cloudecs.LaunchContainer(l.ECS, l.Config, referenceID)`) and
`json.Marshal`.  Each of them is a parameter of the model: a deterministic
step function on the collaborator's own state.  Every call that reaches a
collaborator is appended to a trace, so that "the launcher was invoked
zero times" and "no write was issued" are statements about the trace.
Logging has no influence on any result and is left out.

Go strings are byte strings.  The manager never looks inside one: it
concatenates keys and hands values through.  Only the serialization section
does, and it reads a `String` as the byte string whose bytes are the codes
of its characters.
-/

namespace Lobby

/-! ## Go values -/

/-- Go `error` values the manager can tell apart: `redis.Nil` (the key does
not exist) and every other error. -/
inductive Error where
  | Nil
  | other (msg : String)
  deriving DecidableEq, Repr

/-- Reply of a Redis `GET` (`*redis.StringCmd`): a stored value, the absent
key, or a failed command. -/
inductive StringCmd where
  | val (v : String)
  | nil
  | fail (msg : String)
  deriving DecidableEq, Repr

/-- Go-redis `StringCmd.Result()`: the pair `(val, err)`; `val` is the zero
string whenever `err` is set, and the absent key is the error `redis.Nil`. -/
def StringCmd.Result : StringCmd → String × Option Error
  | .val v => (v, none)
  | .nil => ("", some Error.Nil)
  | .fail msg => ("", some (Error.other msg))

/-- The Redis client as the manager uses it: `Set(ctx, key, value, 0).Err()`
and `Get(ctx, key)`, each a step on the store state `σ`. -/
structure RedisClient (σ : Type) where
  Set : σ → String → String → σ × Option Error
  Get : σ → String → σ × StringCmd

/-- Modelled from the spec: `interfaces.PostLobbyRequest` is declared outside
the source files at hand; the creation request `{referenceID, lobbyName, ...}`
with the two fields the manager reads. -/
structure PostLobbyRequest where
  ReferenceID : String
  LobbyName : String
  deriving DecidableEq, Repr

/-- Modelled from the spec: `interfaces.LOBBY_CREATING` is declared outside
the source files at hand; the stored status literal `creating` of the
status set `creating | running | failed`. -/
def LOBBY_CREATING : String := "creating"

/-- The manager with its collaborators.  `Redis` is the field of the Go
struct; `LaunchContainer` stands for `cloudecs.LaunchContainer(l.ECS,
l.Config, ·)`, which is handed the ECS client and the configuration and no
Redis handle, so it steps the launcher state `τ` only; `Marshal` stands for
`json.Marshal` on a request, returning Go's `(data, err)`. -/
structure LobbyManager (σ τ : Type) where
  Redis : RedisClient σ
  LaunchContainer : τ → String → τ × (String × Option Error)
  Marshal : PostLobbyRequest → String × Option Error

/-- One call that left the manager. -/
inductive Call where
  | set (key value : String)
  | get (key : String)
  | launch (referenceID : String)
  deriving DecidableEq, Repr

/-- The world outside the manager: store state, launcher state and the
chronological trace of calls. -/
structure World (σ τ : Type) where
  redis : σ
  ecs : τ
  trace : List Call

/-- Number of launcher invocations recorded in a trace. -/
def launchCount : List Call → Nat
  | [] => 0
  | Call.launch _ :: cs => launchCount cs + 1
  | _ :: cs => launchCount cs

/-- Number of store writes recorded in a trace. -/
def setCount : List Call → Nat
  | [] => 0
  | Call.set _ _ :: cs => setCount cs + 1
  | _ :: cs => setCount cs

/-! ## Calls to the collaborators -/

/-- The call `l.Redis.Set(ctx, key, value, 0).Err()`. -/
def redisSet {σ τ : Type} (l : LobbyManager σ τ) (w : World σ τ) (key value : String) :
    Option Error × World σ τ :=
  ((l.Redis.Set w.redis key value).2,
    { redis := (l.Redis.Set w.redis key value).1, ecs := w.ecs,
      trace := w.trace ++ [Call.set key value] })

/-- The call `l.Redis.Get(ctx, key).Result()`. -/
def redisGet {σ τ : Type} (l : LobbyManager σ τ) (w : World σ τ) (key : String) :
    (String × Option Error) × World σ τ :=
  ((l.Redis.Get w.redis key).2.Result,
    { redis := (l.Redis.Get w.redis key).1, ecs := w.ecs,
      trace := w.trace ++ [Call.get key] })

/-- The call `cloudecs.LaunchContainer(l.ECS, l.Config, referenceID)`. -/
def launchContainer {σ τ : Type} (l : LobbyManager σ τ) (w : World σ τ) (referenceID : String) :
    (String × Option Error) × World σ τ :=
  ((l.LaunchContainer w.ecs referenceID).2,
    { redis := w.redis, ecs := (l.LaunchContainer w.ecs referenceID).1,
      trace := w.trace ++ [Call.launch referenceID] })

/-- The key `fmt.Sprintf("lobby:%s", referenceID)`. -/
def lobbyKey (referenceID : String) : String := "lobby:" ++ referenceID

/-- The key `fmt.Sprintf("lobby:%s:status", referenceID)`. -/
def statusKey (referenceID : String) : String := "lobby:" ++ referenceID ++ ":status"

/-! ## The methods of `LobbyManager` -/

/-- `LobbyManager.CreateEntityInRedis`: write the payload; on an error
return it; otherwise write the status `LOBBY_CREATING` and return that
write's error. -/
def CreateEntityInRedis {σ τ : Type} (l : LobbyManager σ τ) (referenceID lobbyData : String)
    (w : World σ τ) : Option Error × World σ τ :=
  match redisSet l w (lobbyKey referenceID) lobbyData with
  | (some err, w1) => (some err, w1)
  | (none, w1) => redisSet l w1 (statusKey referenceID) LOBBY_CREATING

/-- `LobbyManager.GetEntityInRedis`: read the status; `redis.Nil` gives
`("not_found", "", nil)`, another error gives `("", "", err)`; otherwise
read the payload, dropping that read's error, and return both. -/
def GetEntityInRedis {σ τ : Type} (l : LobbyManager σ τ) (referenceID : String)
    (w : World σ τ) : (String × String × Option Error) × World σ τ :=
  match redisGet l w (statusKey referenceID) with
  | ((_, some err), w1) =>
    if err = Error.Nil then (("not_found", "", none), w1) else (("", "", some err), w1)
  | ((status, none), w1) =>
    match redisGet l w1 (lobbyKey referenceID) with
    | ((lobbyData, _), w2) => ((status, lobbyData, none), w2)

/-- `LobbyManager.GetLobbyData`: read the payload; `redis.Nil` gives
`("not_found", nil)`, another error gives `("", err)`. -/
def GetLobbyData {σ τ : Type} (l : LobbyManager σ τ) (referenceID : String)
    (w : World σ τ) : (String × Option Error) × World σ τ :=
  match redisGet l w (lobbyKey referenceID) with
  | ((_, some err), w1) =>
    if err = Error.Nil then (("not_found", none), w1) else (("", some err), w1)
  | ((lobbyData, none), w1) => ((lobbyData, none), w1)

/-- `LobbyManager.CreateLobby`: marshal, persist, launch; every error
returns `"error"` at once, success returns `"created"`. -/
def CreateLobby {σ τ : Type} (l : LobbyManager σ τ) (params : PostLobbyRequest)
    (w : World σ τ) : String × World σ τ :=
  match l.Marshal params with
  | (_, some _) => ("error", w)
  | (data, none) =>
    match CreateEntityInRedis l params.ReferenceID data w with
    | (some _, w1) => ("error", w1)
    | (none, w1) =>
      match launchContainer l w1 params.ReferenceID with
      | ((_, some _), w2) => ("error", w2)
      | ((_, none), w2) => ("created", w2)

/-- `LobbyManager.StatusLobby`: `GetEntityInRedis`, with an error turned
into `("error", "")`. -/
def StatusLobby {σ τ : Type} (l : LobbyManager σ τ) (referenceID : String)
    (w : World σ τ) : (String × String) × World σ τ :=
  match GetEntityInRedis l referenceID w with
  | ((_, _, some _), w1) => (("error", ""), w1)
  | ((lobbyStatus, lobbyData, none), w1) => ((lobbyStatus, lobbyData), w1)

/-! ## Concrete collaborators -/

/-- A store that behaves as a key-value map and never fails: the state is
the map, `Set` overwrites one key, `Get` reads one key. -/
def kvRedis : RedisClient (String → Option String) where
  Set := fun s key value => (fun k => if k = key then some value else s k, none)
  Get := fun s key =>
    (s, match s key with
        | some v => StringCmd.val v
        | none => StringCmd.nil)

/-- The empty store. -/
def emptyStore : String → Option String := fun _ => none

/-- A serializer for requests whose fields need no JSON escaping: the
object `encoding/json` produces for them. -/
def sampleMarshal (p : PostLobbyRequest) : String × Option Error :=
  ("\x7b\"referenceID\":\"" ++ p.ReferenceID ++ "\",\"lobbyName\":\"" ++ p.LobbyName ++ "\"\x7d",
    none)

/-- A launcher that always succeeds with the handle `task-9`. -/
def okLauncher : Unit → String → Unit × (String × Option Error) :=
  fun u _ => (u, ("task-9", none))

/-- A launcher that always fails. -/
def failLauncher : Unit → String → Unit × (String × Option Error) :=
  fun u _ => (u, ("", some (Error.other "launch failed")))

/-- The manager over the key-value store with a given launcher and
serializer. -/
def kvManager {τ : Type} (launch : τ → String → τ × (String × Option Error))
    (marshal : PostLobbyRequest → String × Option Error) :
    LobbyManager (String → Option String) τ where
  Redis := kvRedis
  LaunchContainer := launch
  Marshal := marshal

/-- A world around the key-value store with an empty trace. -/
def kvWorld (s : String → Option String) : World (String → Option String) Unit where
  redis := s
  ecs := ()
  trace := []

/-- A key-value store that serves a bounded number of further commands and
then is unavailable: the state is the map and the number of commands still
served; a command arriving at zero fails and changes nothing. -/
def outageRedis : RedisClient ((String → Option String) × Nat) where
  Set := fun s key value =>
    match s.2 with
    | 0 => (s, some (Error.other "store unavailable"))
    | n + 1 => ((fun k => if k = key then some value else s.1 k, n), none)
  Get := fun s key =>
    match s.2 with
    | 0 => (s, StringCmd.fail "store unavailable")
    | n + 1 =>
      ((s.1, n), match s.1 key with
                 | some v => StringCmd.val v
                 | none => StringCmd.nil)

/-- The manager over the store with an outage. -/
def outageManager {τ : Type} (launch : τ → String → τ × (String × Option Error))
    (marshal : PostLobbyRequest → String × Option Error) :
    LobbyManager ((String → Option String) × Nat) τ where
  Redis := outageRedis
  LaunchContainer := launch
  Marshal := marshal

/-- A world around the store with an outage after `n` commands. -/
def outageWorld (s : String → Option String) (n : Nat) :
    World ((String → Option String) × Nat) Unit where
  redis := (s, n)
  ecs := ()
  trace := []

/-- The world after `n` successive calls of `StatusLobby` for one
identity. -/
def pollStatus {σ τ : Type} (l : LobbyManager σ τ) (referenceID : String) :
    Nat → World σ τ → World σ τ
  | 0, w => w
  | n + 1, w => pollStatus l referenceID n (StatusLobby l referenceID w).2

/-- Reply of the store to the first write of `CreateLobby`: the payload
under `lobby:<referenceID>`. -/
def payloadWrite {σ τ : Type} (l : LobbyManager σ τ) (params : PostLobbyRequest)
    (w : World σ τ) : σ × Option Error :=
  l.Redis.Set w.redis (lobbyKey params.ReferenceID) (l.Marshal params).1

/-- Reply of the store to the second write of `CreateLobby`, issued on the
state the first write left: the status under `lobby:<referenceID>:status`. -/
def statusWrite {σ τ : Type} (l : LobbyManager σ τ) (params : PostLobbyRequest)
    (w : World σ τ) : σ × Option Error :=
  l.Redis.Set (payloadWrite l params w).1 (statusKey params.ReferenceID) LOBBY_CREATING

/-- Reply of the store to the status read of `StatusLobby`. -/
def statusRead {σ τ : Type} (l : LobbyManager σ τ) (referenceID : String)
    (w : World σ τ) : σ × StringCmd :=
  l.Redis.Get w.redis (statusKey referenceID)

/-- Reply of the store to the payload read that follows the status read in
`StatusLobby`. -/
def payloadReadAfterStatus {σ τ : Type} (l : LobbyManager σ τ) (referenceID : String)
    (w : World σ τ) : σ × StringCmd :=
  l.Redis.Get (statusRead l referenceID w).1 (lobbyKey referenceID)

/-- Reply of the store to the payload read of `GetLobbyData`. -/
def payloadRead {σ τ : Type} (l : LobbyManager σ τ) (referenceID : String)
    (w : World σ τ) : σ × StringCmd :=
  l.Redis.Get w.redis (lobbyKey referenceID)

/-! ## JSON serialization of a request

Go strings are byte strings.  For the serialization the model reads a
`String` as the byte string whose bytes are the codes of its characters, so
that a field such as `"\xff"` is the one-character string with code 255.
The functions below follow `encoding/json` (`json.Marshal` with HTML
escaping, as of Go 1.22; earlier releases write `\u0008` and `\u000c` where
these write `\b` and `\f`, with the same decoding) and `unicode/utf8`. -/

/-- The bytes of a Go string. -/
def goBytes (s : String) : List Nat := s.data.map Char.toNat

/-- The Go string with the given bytes. -/
def ofGoBytes (bs : List Nat) : String := String.mk (bs.map Char.ofNat)

/-- A UTF-8 continuation byte, `0x80..0xBF`. -/
def isCont (b : Nat) : Bool := decide (128 ≤ b) && decide (b ≤ 191)

/-- The accepted second byte after the lead byte `b0` of a three- or
four-byte sequence (`acceptRanges` of `unicode/utf8`): no overlong
encodings, no surrogates, nothing above `U+10FFFF`. -/
def isSecond (b0 b1 : Nat) : Bool :=
  decide ((if b0 = 224 then 160 else if b0 = 240 then 144 else 128) ≤ b1) &&
    decide (b1 ≤ (if b0 = 237 then 159 else if b0 = 244 then 143 else 191))

/-- The size `utf8.DecodeRuneInString` reports for a well-formed multi-byte
sequence at the head of the input, and `0` where it reports `RuneError`
with size 1 (or the head is ASCII). -/
def runeSize : List Nat → Nat
  | b0 :: b1 :: t =>
    if 194 ≤ b0 ∧ b0 ≤ 223 then (if isCont b1 then 2 else 0)
    else if 224 ≤ b0 ∧ b0 ≤ 239 then
      match t with
      | b2 :: _ => if isSecond b0 b1 ∧ isCont b2 then 3 else 0
      | [] => 0
    else if 240 ≤ b0 ∧ b0 ≤ 244 then
      match t with
      | b2 :: b3 :: _ => if isSecond b0 b1 ∧ isCont b2 ∧ isCont b3 then 4 else 0
      | _ => 0
    else 0
  | _ => 0

/-- The lowercase hexadecimal digit of a value below 16. -/
def hexDigit (n : Nat) : Nat := if n < 10 then 48 + n else 87 + n

/-- The value of a hexadecimal digit, in either case. -/
def hexValue (c : Nat) : Option Nat :=
  if 48 ≤ c ∧ c ≤ 57 then some (c - 48)
  else if 97 ≤ c ∧ c ≤ 102 then some (c - 87)
  else if 65 ≤ c ∧ c ≤ 70 then some (c - 55)
  else none

/-- How `appendString` writes one ASCII byte: a backslash before the quote
and the backslash, the short escapes for backspace, form feed, newline,
carriage return and tab, a six-byte Unicode escape for the other control
bytes and for `<`, `>`, `&`, and the byte itself otherwise. -/
def escapeByte (b : Nat) : List Nat :=
  if b = 34 ∨ b = 92 then [92, b]
  else if b = 8 then [92, 98]
  else if b = 12 then [92, 102]
  else if b = 10 then [92, 110]
  else if b = 13 then [92, 114]
  else if b = 9 then [92, 116]
  else if b < 32 ∨ b = 60 ∨ b = 62 ∨ b = 38 then
    [92, 117, 48, 48, hexDigit (b / 16), hexDigit (b % 16)]
  else [b]

/-- The body of `appendString` between the quotes, with the input length as
fuel: ASCII bytes go through `escapeByte`; a byte that starts no well-formed
sequence is written as the escape of `U+FFFD`; the line and paragraph
separators `U+2028` and `U+2029` are escaped; every other well-formed
sequence is copied. -/
def quoteFuel : Nat → List Nat → List Nat
  | 0, _ => []
  | _ + 1, [] => []
  | f + 1, b :: t =>
    if b < 128 then escapeByte b ++ quoteFuel f t
    else if runeSize (b :: t) = 0 then [92, 117, 102, 102, 102, 100] ++ quoteFuel f t
    else if (b :: t).take 3 = [226, 128, 168] then
      [92, 117, 50, 48, 50, 56] ++ quoteFuel f (t.drop 2)
    else if (b :: t).take 3 = [226, 128, 169] then
      [92, 117, 50, 48, 50, 57] ++ quoteFuel f (t.drop 2)
    else (b :: t).take (runeSize (b :: t)) ++ quoteFuel f ((b :: t).drop (runeSize (b :: t)))

/-- The check `utf8.ValidString` on bytes, with the input length as fuel. -/
def validFuel : Nat → List Nat → Bool
  | 0, _ => true
  | _ + 1, [] => true
  | f + 1, b :: t =>
    if b < 128 then validFuel f t
    else decide (runeSize (b :: t) ≠ 0) && validFuel f ((b :: t).drop (runeSize (b :: t)))

/-- A Go string that is valid UTF-8 (`utf8.ValidString`). -/
def ValidUTF8 (s : String) : Prop := validFuel (goBytes s).length (goBytes s) = true

instance decidableValidUTF8 (s : String) : Decidable (ValidUTF8 s) :=
  inferInstanceAs (Decidable (validFuel (goBytes s).length (goBytes s) = true))

/-- The UTF-8 encoding of a code point (`utf8.EncodeRune`); surrogates and
values above `U+10FFFF` are encoded as `U+FFFD`. -/
def encodeRune (r : Nat) : List Nat :=
  if r < 128 then [r]
  else if r < 2048 then [192 + r / 64, 128 + r % 64]
  else if (55296 ≤ r ∧ r ≤ 57343) ∨ 1114111 < r then [239, 191, 189]
  else if r < 65536 then [224 + r / 4096, 128 + r / 64 % 64, 128 + r % 64]
  else [240 + r / 262144, 128 + r / 4096 % 64, 128 + r / 64 % 64, 128 + r % 64]

/-- The code unit written by four hexadecimal digits (`getu4`). -/
def hex4 (a b c d : Nat) : Option Nat :=
  match hexValue a, hexValue b, hexValue c, hexValue d with
  | some x, some y, some z, some u => some (((x * 16 + y) * 16 + z) * 16 + u)
  | _, _, _, _ => none

/-- The byte a two-byte escape stands for (`unquoteBytes`). -/
def simpleEscape (e : Nat) : Option Nat :=
  if e = 34 ∨ e = 92 ∨ e = 47 then some e
  else if e = 98 then some 8
  else if e = 102 then some 12
  else if e = 110 then some 10
  else if e = 114 then some 13
  else if e = 116 then some 9
  else none

/-- Reading a JSON string literal after its opening quote, on the texts
`quoteFuel` writes: the decoded bytes and the input after the closing quote.
A Unicode escape is decoded by `hex4` and `encodeRune` (an escaped surrogate
becomes `U+FFFD`); a raw control byte is an error; every other byte is
copied. -/
def unquoteFrom : List Nat → Option (List Nat × List Nat)
  | [] => none
  | c :: t =>
    if c = 34 then some ([], t)
    else if c = 92 then
      match t with
      | [] => none
      | e :: t1 =>
        if e = 117 then
          match t1 with
          | h1 :: h2 :: h3 :: h4 :: t2 =>
            match hex4 h1 h2 h3 h4 with
            | some r => (unquoteFrom t2).map (fun p => (encodeRune r ++ p.1, p.2))
            | none => none
          | _ => none
        else
          match simpleEscape e with
          | some b => (unquoteFrom t1).map (fun p => (b :: p.1, p.2))
          | none => none
    else if c < 32 then none
    else (unquoteFrom t).map (fun p => (c :: p.1, p.2))

/-- Dropping an expected run of bytes from the head of the input. -/
def expectBytes : List Nat → List Nat → Option (List Nat)
  | [], bs => some bs
  | _ :: _, [] => none
  | p :: ps, b :: bs => if p = b then expectBytes ps bs else none

/-- Modelled from the spec: the declaration of `PostLobbyRequest`, and with
it the JSON names of its fields, is outside the source files at hand; the
names `referenceID` and `lobbyName` are those of the stored payload in the
spec.  These are the bytes up to and including the quote that opens the
first field. -/
def objectHead : List Nat := goBytes "\x7b\"referenceID\":\""

/-- The bytes between the two field values: the comma, the second name and
the quote that opens the second field (see `objectHead`). -/
def objectMiddle : List Nat := goBytes ",\"lobbyName\":\""

/-- The text `json.Marshal` writes for a request; it returns no error on a
struct of strings. -/
def jsonMarshal (p : PostLobbyRequest) : String × Option Error :=
  (ofGoBytes (objectHead ++ quoteFuel (goBytes p.ReferenceID).length (goBytes p.ReferenceID) ++
      [34] ++ objectMiddle ++
      quoteFuel (goBytes p.LobbyName).length (goBytes p.LobbyName) ++ [34, 125]), none)

/-- What `json.Unmarshal` into a request yields on the texts `jsonMarshal`
writes: the two decoded fields. -/
def jsonUnmarshal (s : String) : Option PostLobbyRequest :=
  match expectBytes objectHead (goBytes s) with
  | none => none
  | some r1 =>
    match unquoteFrom r1 with
    | none => none
    | some (ref, r2) =>
      match expectBytes objectMiddle r2 with
      | none => none
      | some r3 =>
        match unquoteFrom r3 with
        | some (name, [125]) => some ⟨ofGoBytes ref, ofGoBytes name⟩
        | _ => none

/-! ## Worlds the manager can bring about -/

/-- What matters here of `encoding/json`: a request is a struct, and a
struct is serialized as a JSON object, a text that begins with an opening
brace. -/
def MarshalsObject (marshal : PostLobbyRequest → String × Option Error) : Prop :=
  ∀ p, (marshal p).2 = none → (marshal p).1.data.head? = some (Char.ofNat 123)

/-- The values the manager writes: the status `LOBBY_CREATING` and the
successful serializations of requests. -/
def WrittenByManager (marshal : PostLobbyRequest → String × Option Error) (v : String) : Prop :=
  v = LOBBY_CREATING ∨ ∃ p, (marshal p).2 = none ∧ v = (marshal p).1

/-- The worlds the manager can bring about over the store with outages: the
store starts empty, the manager's three entry points run in any order with
any arguments, and between two calls the number of commands the store still
serves may change in any way.  Within one call this lets every command
succeed or fail after any number of successes. -/
inductive Reachable {τ : Type} (launch : τ → String → τ × (String × Option Error))
    (marshal : PostLobbyRequest → String × Option Error) :
    World ((String → Option String) × Nat) τ → Prop where
  | init (n : Nat) (e : τ) :
      Reachable launch marshal { redis := (emptyStore, n), ecs := e, trace := [] }
  | outage (w : World ((String → Option String) × Nat) τ) (n : Nat) :
      Reachable launch marshal w →
      Reachable launch marshal { redis := (w.redis.1, n), ecs := w.ecs, trace := w.trace }
  | create (w : World ((String → Option String) × Nat) τ) (params : PostLobbyRequest) :
      Reachable launch marshal w →
      Reachable launch marshal (CreateLobby (outageManager launch marshal) params w).2
  | status (w : World ((String → Option String) × Nat) τ) (referenceID : String) :
      Reachable launch marshal w →
      Reachable launch marshal (StatusLobby (outageManager launch marshal) referenceID w).2
  | data (w : World ((String → Option String) × Nat) τ) (referenceID : String) :
      Reachable launch marshal w →
      Reachable launch marshal (GetLobbyData (outageManager launch marshal) referenceID w).2

/-! ## Helper lemmas -/

theorem launchCount_append (a b : List Call) :
    launchCount (a ++ b) = launchCount a + launchCount b := by
  induction a with
  | nil => simp [launchCount]
  | cons c cs ih =>
    cases c <;> simp [launchCount, ih]; omega

theorem setCount_append (a b : List Call) :
    setCount (a ++ b) = setCount a + setCount b := by
  induction a with
  | nil => simp [setCount]
  | cons c cs ih =>
    cases c <;> simp [setCount, ih]; omega

/-! ## Creation -/

/-- C1. Failure isolation: whenever the store rejects the payload write, or
accepts it and rejects the status write, `CreateLobby` returns `"error"`,
the trace gains no launcher call and the launcher state is untouched. -/
theorem createLobby_store_rejection_isolated {σ τ : Type} (l : LobbyManager σ τ)
    (params : PostLobbyRequest) (w : World σ τ)
    (hrej : (payloadWrite l params w).2 ≠ none ∨
      ((payloadWrite l params w).2 = none ∧ (statusWrite l params w).2 ≠ none)) :
    (CreateLobby l params w).1 = "error" ∧
      launchCount (CreateLobby l params w).2.trace = launchCount w.trace ∧
      (CreateLobby l params w).2.ecs = w.ecs := by
  unfold statusWrite payloadWrite at hrej
  rcases hm : l.Marshal params with ⟨data, _ | merr⟩
  · rw [hm] at hrej
    rcases h1 : (l.Redis.Set w.redis (lobbyKey params.ReferenceID) data).2 with _ | e1
    · rcases h2 : (l.Redis.Set (l.Redis.Set w.redis (lobbyKey params.ReferenceID) data).1
          (statusKey params.ReferenceID) LOBBY_CREATING).2 with _ | e2
      · simp [h1, h2] at hrej
      · simp [CreateLobby, CreateEntityInRedis, redisSet, hm, h1, h2, launchCount_append,
          launchCount]
    · simp [CreateLobby, CreateEntityInRedis, redisSet, hm, h1, launchCount_append,
        launchCount]
  · simp [CreateLobby, hm]

/-- C2. `CreateLobby` returns `"created"` or `"error"` and nothing else; it
returns `"created"` exactly when serialization, the payload write, the
status write and the launch all return no error, and `"error"` exactly when
one of them fails. -/
theorem createLobby_created_iff_all_succeed {σ τ : Type} (l : LobbyManager σ τ)
    (params : PostLobbyRequest) (w : World σ τ) :
    ((CreateLobby l params w).1 = "created" ∨ (CreateLobby l params w).1 = "error") ∧
      ((CreateLobby l params w).1 = "created" ↔
        ((l.Marshal params).2 = none ∧ (payloadWrite l params w).2 = none ∧
          (statusWrite l params w).2 = none ∧
          (l.LaunchContainer w.ecs params.ReferenceID).2.2 = none)) ∧
      ((CreateLobby l params w).1 = "error" ↔
        ¬ ((l.Marshal params).2 = none ∧ (payloadWrite l params w).2 = none ∧
          (statusWrite l params w).2 = none ∧
          (l.LaunchContainer w.ecs params.ReferenceID).2.2 = none)) := by
  unfold statusWrite payloadWrite
  rcases hm : l.Marshal params with ⟨data, _ | merr⟩
  · rcases h1 : (l.Redis.Set w.redis (lobbyKey params.ReferenceID) data).2 with _ | e1
    · rcases h2 : (l.Redis.Set (l.Redis.Set w.redis (lobbyKey params.ReferenceID) data).1
          (statusKey params.ReferenceID) LOBBY_CREATING).2 with _ | e2
      · rcases h3 : (l.LaunchContainer w.ecs params.ReferenceID).2 with ⟨arn, _ | e3⟩
        · simp [CreateLobby, CreateEntityInRedis, redisSet, launchContainer, hm, h1, h2, h3]
        · simp [CreateLobby, CreateEntityInRedis, redisSet, launchContainer, hm, h1, h2, h3]
      · simp [CreateLobby, CreateEntityInRedis, redisSet, hm, h1, h2]
    · simp [CreateLobby, CreateEntityInRedis, redisSet, hm, h1]
  · simp [CreateLobby, hm]

/-- Witness of C1: the store serves the payload write and rejects the
status write. -/
theorem createLobby_store_rejection_isolated_witness :
    ((payloadWrite (outageManager okLauncher sampleMarshal) ⟨"abc123", "duel-1"⟩
          (outageWorld emptyStore 1)).2 ≠ none ∨
      ((payloadWrite (outageManager okLauncher sampleMarshal) ⟨"abc123", "duel-1"⟩
          (outageWorld emptyStore 1)).2 = none ∧
        (statusWrite (outageManager okLauncher sampleMarshal) ⟨"abc123", "duel-1"⟩
          (outageWorld emptyStore 1)).2 ≠ none)) ∧
    ((CreateLobby (outageManager okLauncher sampleMarshal) ⟨"abc123", "duel-1"⟩
          (outageWorld emptyStore 1)).1 = "error" ∧
      launchCount (CreateLobby (outageManager okLauncher sampleMarshal) ⟨"abc123", "duel-1"⟩
          (outageWorld emptyStore 1)).2.trace = launchCount (outageWorld emptyStore 1).trace ∧
      (CreateLobby (outageManager okLauncher sampleMarshal) ⟨"abc123", "duel-1"⟩
          (outageWorld emptyStore 1)).2.ecs = (outageWorld emptyStore 1).ecs) :=
  ⟨Or.inr ⟨by decide, by decide⟩,
    createLobby_store_rejection_isolated _ _ _ (Or.inr ⟨by decide, by decide⟩)⟩

/-! ## Keys -/

theorem string_append_left_cancel {p a b : String} (h : p ++ a = p ++ b) : a = b := by
  have hd := congrArg String.data h
  simp only [String.data_append, List.append_cancel_left_eq] at hd
  exact String.ext hd

theorem string_append_right_cancel {a b q : String} (h : a ++ q = b ++ q) : a = b := by
  have hd := congrArg String.data h
  simp only [String.data_append, List.append_cancel_right_eq] at hd
  exact String.ext hd

theorem lobbyKey_inj {a b : String} : lobbyKey a = lobbyKey b ↔ a = b :=
  ⟨fun h => string_append_left_cancel h, fun h => by rw [h]⟩

theorem statusKey_inj {a b : String} : statusKey a = statusKey b ↔ a = b :=
  ⟨fun h => string_append_left_cancel (string_append_right_cancel h), fun h => by rw [h]⟩

theorem statusKey_eq_lobbyKey {a b : String} :
    statusKey a = lobbyKey b ↔ b = a ++ ":status" := by
  unfold statusKey lobbyKey
  rw [String.append_assoc]
  exact ⟨fun h => (string_append_left_cancel h).symm, fun h => by rw [h]⟩

theorem statusKey_ne_lobbyKey_self (a : String) : statusKey a ≠ lobbyKey a := by
  intro h
  have hl := congrArg String.length (statusKey_eq_lobbyKey.mp h)
  simp [String.length_append] at hl
  have : (":status" : String).length = 7 := by decide
  omega

/-! ## The manager over the key-value store -/

theorem statusLobby_kv_absent {τ : Type} (launch : τ → String → τ × (String × Option Error))
    (marshal : PostLobbyRequest → String × Option Error) (referenceID : String)
    (w : World (String → Option String) τ) (h : w.redis (statusKey referenceID) = none) :
    (StatusLobby (kvManager launch marshal) referenceID w).1 = ("not_found", "") := by
  simp [StatusLobby, GetEntityInRedis, redisGet, kvManager, kvRedis, h, StringCmd.Result]

theorem statusLobby_kv_present {τ : Type} (launch : τ → String → τ × (String × Option Error))
    (marshal : PostLobbyRequest → String × Option Error) (referenceID st : String)
    (w : World (String → Option String) τ) (h : w.redis (statusKey referenceID) = some st) :
    (StatusLobby (kvManager launch marshal) referenceID w).1 =
      (st, (w.redis (lobbyKey referenceID)).getD "") := by
  cases hp : w.redis (lobbyKey referenceID) <;>
    simp [StatusLobby, GetEntityInRedis, redisGet, kvManager, kvRedis, h, hp, StringCmd.Result]

theorem statusLobby_kv_world {τ : Type} (launch : τ → String → τ × (String × Option Error))
    (marshal : PostLobbyRequest → String × Option Error) (referenceID : String)
    (w : World (String → Option String) τ) :
    (StatusLobby (kvManager launch marshal) referenceID w).2.redis = w.redis ∧
      (StatusLobby (kvManager launch marshal) referenceID w).2.ecs = w.ecs ∧
      setCount (StatusLobby (kvManager launch marshal) referenceID w).2.trace =
        setCount w.trace ∧
      launchCount (StatusLobby (kvManager launch marshal) referenceID w).2.trace =
        launchCount w.trace := by
  cases hs : w.redis (statusKey referenceID) <;>
    simp [StatusLobby, GetEntityInRedis, redisGet, kvManager, kvRedis, hs, StringCmd.Result,
      setCount_append, launchCount_append, setCount, launchCount]

theorem getLobbyData_kv {τ : Type} (launch : τ → String → τ × (String × Option Error))
    (marshal : PostLobbyRequest → String × Option Error) (referenceID : String)
    (w : World (String → Option String) τ) :
    (GetLobbyData (kvManager launch marshal) referenceID w).1 =
      ((w.redis (lobbyKey referenceID)).getD "not_found", none) := by
  cases hp : w.redis (lobbyKey referenceID) <;>
    simp [GetLobbyData, redisGet, kvManager, kvRedis, hp, StringCmd.Result]

theorem statusLobby_kv_congr {τ : Type} (launch : τ → String → τ × (String × Option Error))
    (marshal : PostLobbyRequest → String × Option Error) (referenceID : String)
    (w w' : World (String → Option String) τ)
    (hs : w'.redis (statusKey referenceID) = w.redis (statusKey referenceID))
    (hp : w'.redis (lobbyKey referenceID) = w.redis (lobbyKey referenceID)) :
    (StatusLobby (kvManager launch marshal) referenceID w').1 =
      (StatusLobby (kvManager launch marshal) referenceID w).1 := by
  cases h : w.redis (statusKey referenceID) with
  | none =>
    rw [statusLobby_kv_absent _ _ _ _ h, statusLobby_kv_absent _ _ _ _ (hs.trans h)]
  | some st =>
    rw [statusLobby_kv_present _ _ _ _ _ h, statusLobby_kv_present _ _ _ _ _ (hs.trans h), hp]

theorem createLobby_kv_marshal_ok {τ : Type} (launch : τ → String → τ × (String × Option Error))
    (marshal : PostLobbyRequest → String × Option Error) (params : PostLobbyRequest)
    (w : World (String → Option String) τ) (hm : (marshal params).2 = none) :
    (CreateLobby (kvManager launch marshal) params w).2.redis =
        (fun k => if k = statusKey params.ReferenceID then some LOBBY_CREATING
          else if k = lobbyKey params.ReferenceID then some (marshal params).1
          else w.redis k) ∧
      (CreateLobby (kvManager launch marshal) params w).2.trace =
        w.trace ++ [Call.set (lobbyKey params.ReferenceID) (marshal params).1,
          Call.set (statusKey params.ReferenceID) LOBBY_CREATING,
          Call.launch params.ReferenceID] ∧
      ((CreateLobby (kvManager launch marshal) params w).1 = "created" ↔
        (launch w.ecs params.ReferenceID).2.2 = none) ∧
      ((CreateLobby (kvManager launch marshal) params w).1 = "error" ↔
        (launch w.ecs params.ReferenceID).2.2 ≠ none) := by
  rcases hm' : marshal params with ⟨data, merr⟩
  rw [hm'] at hm
  simp only at hm
  subst hm
  rcases h3 : (launch w.ecs params.ReferenceID).2 with ⟨arn, _ | e3⟩ <;>
    simp [CreateLobby, CreateEntityInRedis, redisSet, launchContainer, kvManager, kvRedis,
      hm', h3]

theorem createLobby_kv_created {τ : Type} (launch : τ → String → τ × (String × Option Error))
    (marshal : PostLobbyRequest → String × Option Error) (params : PostLobbyRequest)
    (w : World (String → Option String) τ)
    (hc : (CreateLobby (kvManager launch marshal) params w).1 = "created") :
    (marshal params).2 = none := by
  rcases hm : marshal params with ⟨data, _ | merr⟩
  · rfl
  · simp [CreateLobby, kvManager, hm] at hc

theorem createLobby_kv_frame {τ : Type} (launch : τ → String → τ × (String × Option Error))
    (marshal : PostLobbyRequest → String × Option Error) (params : PostLobbyRequest)
    (w : World (String → Option String) τ) (k : String)
    (h1 : k ≠ lobbyKey params.ReferenceID) (h2 : k ≠ statusKey params.ReferenceID) :
    (CreateLobby (kvManager launch marshal) params w).2.redis k = w.redis k := by
  rcases hm : marshal params with ⟨data, _ | merr⟩
  · have h := (createLobby_kv_marshal_ok launch marshal params w (by rw [hm])).1
    rw [h]
    simp [h1, h2]
  · simp [CreateLobby, kvManager, hm]

/-! ## Creation followed by a read -/

/-- C3, as the code has it: on the key-value store, after `CreateLobby`
returns `"created"` the status stored under `lobby:<referenceID>:status` is
`LOBBY_CREATING`, and a subsequent `StatusLobby` returns `LOBBY_CREATING`
together with the serialized request. -/
theorem createLobby_then_status_creating {τ : Type}
    (launch : τ → String → τ × (String × Option Error))
    (marshal : PostLobbyRequest → String × Option Error) (params : PostLobbyRequest)
    (w : World (String → Option String) τ)
    (hc : (CreateLobby (kvManager launch marshal) params w).1 = "created") :
    (CreateLobby (kvManager launch marshal) params w).2.redis (statusKey params.ReferenceID) =
        some LOBBY_CREATING ∧
      (StatusLobby (kvManager launch marshal) params.ReferenceID
        (CreateLobby (kvManager launch marshal) params w).2).1 =
        (LOBBY_CREATING, (marshal params).1) := by
  have hm := createLobby_kv_created launch marshal params w hc
  have hr := (createLobby_kv_marshal_ok launch marshal params w hm).1
  have hst : (CreateLobby (kvManager launch marshal) params w).2.redis
      (statusKey params.ReferenceID) = some LOBBY_CREATING := by rw [hr]; simp
  refine ⟨hst, ?_⟩
  rw [statusLobby_kv_present _ _ _ _ _ hst, hr]
  simp [(statusKey_ne_lobbyKey_self params.ReferenceID).symm]

/-- Witness of C3: the scenario `abc123` / `duel-1` with a launcher that
returns the handle `task-9`. -/
theorem createLobby_then_status_creating_witness :
    (CreateLobby (kvManager okLauncher sampleMarshal) ⟨"abc123", "duel-1"⟩
        (kvWorld emptyStore)).1 = "created" ∧
      ((CreateLobby (kvManager okLauncher sampleMarshal) ⟨"abc123", "duel-1"⟩
          (kvWorld emptyStore)).2.redis (statusKey "abc123") = some LOBBY_CREATING ∧
        (StatusLobby (kvManager okLauncher sampleMarshal) "abc123"
          (CreateLobby (kvManager okLauncher sampleMarshal) ⟨"abc123", "duel-1"⟩
            (kvWorld emptyStore)).2).1 =
          (LOBBY_CREATING, (sampleMarshal ⟨"abc123", "duel-1"⟩).1)) :=
  ⟨by decide,
    createLobby_then_status_creating okLauncher sampleMarshal ⟨"abc123", "duel-1"⟩
      (kvWorld emptyStore) (by decide)⟩

/-- C3 as stated fails: in the scenario `abc123` / `duel-1` with a launcher
that succeeds with `task-9`, `CreateLobby` returns `"created"`, yet the
stored status is `creating` and `StatusLobby` returns `creating`, not
`running`. -/
theorem createLobby_then_status_not_running :
    (CreateLobby (kvManager okLauncher sampleMarshal) ⟨"abc123", "duel-1"⟩
        (kvWorld emptyStore)).1 = "created" ∧
      (CreateLobby (kvManager okLauncher sampleMarshal) ⟨"abc123", "duel-1"⟩
        (kvWorld emptyStore)).2.redis "lobby:abc123:status" = some "creating" ∧
      (StatusLobby (kvManager okLauncher sampleMarshal) "abc123"
        (CreateLobby (kvManager okLauncher sampleMarshal) ⟨"abc123", "duel-1"⟩
          (kvWorld emptyStore)).2).1 = ("creating", "\x7b\"referenceID\":\"abc123\",\"lobbyName\":\"duel-1\"\x7d") ∧
      (StatusLobby (kvManager okLauncher sampleMarshal) "abc123"
        (CreateLobby (kvManager okLauncher sampleMarshal) ⟨"abc123", "duel-1"⟩
          (kvWorld emptyStore)).2).1.1 ≠ "running" := by
  decide

/-- C4, as the code has it: on the key-value store, when serialization
succeeds and the launcher fails, `CreateLobby` returns `"error"` after
exactly the two initial writes and the launch call, with no further write;
the stored status stays `LOBBY_CREATING` and a subsequent `StatusLobby`
returns `LOBBY_CREATING` with the serialized request. -/
theorem createLobby_launch_failure_leaves_creating {τ : Type}
    (launch : τ → String → τ × (String × Option Error))
    (marshal : PostLobbyRequest → String × Option Error) (params : PostLobbyRequest)
    (w : World (String → Option String) τ)
    (hm : (marshal params).2 = none)
    (hl : (launch w.ecs params.ReferenceID).2.2 ≠ none) :
    (CreateLobby (kvManager launch marshal) params w).1 = "error" ∧
      (CreateLobby (kvManager launch marshal) params w).2.trace =
        w.trace ++ [Call.set (lobbyKey params.ReferenceID) (marshal params).1,
          Call.set (statusKey params.ReferenceID) LOBBY_CREATING,
          Call.launch params.ReferenceID] ∧
      setCount (CreateLobby (kvManager launch marshal) params w).2.trace =
        setCount w.trace + 2 ∧
      (CreateLobby (kvManager launch marshal) params w).2.redis (statusKey params.ReferenceID) =
        some LOBBY_CREATING ∧
      (StatusLobby (kvManager launch marshal) params.ReferenceID
        (CreateLobby (kvManager launch marshal) params w).2).1 =
        (LOBBY_CREATING, (marshal params).1) := by
  obtain ⟨hr, ht, _, he⟩ := createLobby_kv_marshal_ok launch marshal params w hm
  have hst : (CreateLobby (kvManager launch marshal) params w).2.redis
      (statusKey params.ReferenceID) = some LOBBY_CREATING := by rw [hr]; simp
  refine ⟨he.mpr hl, ht, ?_, hst, ?_⟩
  · rw [ht, setCount_append]
    simp [setCount]
  · rw [statusLobby_kv_present _ _ _ _ _ hst, hr]
    simp [(statusKey_ne_lobbyKey_self params.ReferenceID).symm]

/-- Witness of C4: the scenario `abc123` / `duel-1` with a launcher that
fails. -/
theorem createLobby_launch_failure_leaves_creating_witness :
    ((sampleMarshal ⟨"abc123", "duel-1"⟩).2 = none ∧
      (failLauncher (kvWorld emptyStore).ecs "abc123").2.2 ≠ none) ∧
    ((CreateLobby (kvManager failLauncher sampleMarshal) ⟨"abc123", "duel-1"⟩
        (kvWorld emptyStore)).1 = "error" ∧
      (CreateLobby (kvManager failLauncher sampleMarshal) ⟨"abc123", "duel-1"⟩
        (kvWorld emptyStore)).2.trace =
        (kvWorld emptyStore).trace ++
          [Call.set (lobbyKey "abc123") (sampleMarshal ⟨"abc123", "duel-1"⟩).1,
           Call.set (statusKey "abc123") LOBBY_CREATING, Call.launch "abc123"] ∧
      setCount (CreateLobby (kvManager failLauncher sampleMarshal) ⟨"abc123", "duel-1"⟩
        (kvWorld emptyStore)).2.trace = setCount (kvWorld emptyStore).trace + 2 ∧
      (CreateLobby (kvManager failLauncher sampleMarshal) ⟨"abc123", "duel-1"⟩
        (kvWorld emptyStore)).2.redis (statusKey "abc123") = some LOBBY_CREATING ∧
      (StatusLobby (kvManager failLauncher sampleMarshal) "abc123"
        (CreateLobby (kvManager failLauncher sampleMarshal) ⟨"abc123", "duel-1"⟩
          (kvWorld emptyStore)).2).1 =
        (LOBBY_CREATING, (sampleMarshal ⟨"abc123", "duel-1"⟩).1)) :=
  ⟨⟨by decide, by decide⟩,
    createLobby_launch_failure_leaves_creating failLauncher sampleMarshal
      ⟨"abc123", "duel-1"⟩ (kvWorld emptyStore) (by decide) (by decide)⟩

/-- C4 as stated fails: with both initial writes accepted and a launcher
that fails, the calls of `CreateLobby` are the two initial writes and the
launch, no write sets the status to `failed`, and `StatusLobby` afterwards
returns `creating`, not `failed`. -/
theorem createLobby_launch_failure_not_marked_failed :
    (CreateLobby (kvManager failLauncher sampleMarshal) ⟨"abc123", "duel-1"⟩
        (kvWorld emptyStore)).1 = "error" ∧
      (CreateLobby (kvManager failLauncher sampleMarshal) ⟨"abc123", "duel-1"⟩
        (kvWorld emptyStore)).2.trace =
        [Call.set "lobby:abc123" "\x7b\"referenceID\":\"abc123\",\"lobbyName\":\"duel-1\"\x7d", Call.set "lobby:abc123:status" "creating",
          Call.launch "abc123"] ∧
      Call.set "lobby:abc123:status" "failed" ∉
        (CreateLobby (kvManager failLauncher sampleMarshal) ⟨"abc123", "duel-1"⟩
          (kvWorld emptyStore)).2.trace ∧
      (StatusLobby (kvManager failLauncher sampleMarshal) "abc123"
        (CreateLobby (kvManager failLauncher sampleMarshal) ⟨"abc123", "duel-1"⟩
          (kvWorld emptyStore)).2).1 = ("creating", "\x7b\"referenceID\":\"abc123\",\"lobbyName\":\"duel-1\"\x7d") ∧
      (StatusLobby (kvManager failLauncher sampleMarshal) "abc123"
        (CreateLobby (kvManager failLauncher sampleMarshal) ⟨"abc123", "duel-1"⟩
          (kvWorld emptyStore)).2).1.1 ≠ "failed" := by
  decide

/-! ## Serialization round trip -/

theorem char_toNat_ofNat (n : Nat) (h : n < 256) : (Char.ofNat n).toNat = n := by
  have hv : n.isValidChar := Or.inl (by omega)
  simp only [Char.ofNat, hv, dite_true, Char.ofNatAux, Char.toNat]
  simp [UInt32.toNat]

theorem ofGoBytes_goBytes (s : String) : ofGoBytes (goBytes s) = s := by
  simp [ofGoBytes, goBytes, Function.comp_def]

theorem goBytes_ofGoBytes (bs : List Nat) (h : ∀ b ∈ bs, b < 256) :
    goBytes (ofGoBytes bs) = bs := by
  induction bs with
  | nil => rfl
  | cons b t ih =>
    have hb := char_toNat_ofNat b (h b (List.mem_cons_self _ _))
    have ht := ih (fun x hx => h x (List.mem_cons_of_mem _ hx))
    simp only [goBytes, ofGoBytes, List.map_cons, List.map_map] at ht ⊢
    rw [hb]
    exact congrArg (List.cons b) ht

theorem expectBytes_append (pre rest : List Nat) : expectBytes pre (pre ++ rest) = some rest := by
  induction pre with
  | nil => cases rest <;> rfl
  | cons p ps ih => simp [expectBytes, ih]

theorem unquoteFrom_cons (c : Nat) (t : List Nat) :
    unquoteFrom (c :: t) =
      if c = 34 then some ([], t)
      else if c = 92 then
        match t with
        | [] => none
        | e :: t1 =>
          if e = 117 then
            match t1 with
            | h1 :: h2 :: h3 :: h4 :: t2 =>
              match hex4 h1 h2 h3 h4 with
              | some r => (unquoteFrom t2).map (fun p => (encodeRune r ++ p.1, p.2))
              | none => none
            | _ => none
          else
            match simpleEscape e with
            | some b => (unquoteFrom t1).map (fun p => (b :: p.1, p.2))
            | none => none
      else if c < 32 then none
      else (unquoteFrom t).map (fun p => (c :: p.1, p.2)) := by
  conv_lhs => rw [unquoteFrom.eq_def]

theorem unquoteFrom_escapeByte (b : Nat) (hb : b < 128) (rest : List Nat) :
    unquoteFrom (escapeByte b ++ rest) =
      (unquoteFrom rest).map (fun p => (b :: p.1, p.2)) := by
  by_cases hlow : b < 64
  · interval_cases b <;>
      simp [escapeByte, unquoteFrom_cons, hexDigit, hex4, hexValue, simpleEscape, encodeRune]
  · by_cases h92 : b = 92
    · subst h92
      simp [escapeByte, unquoteFrom_cons, simpleEscape]
    · have e : escapeByte b = [b] := by
        unfold escapeByte
        simp only [h92, or_false]
        repeat (rw [if_neg (by omega)])
      rw [e]
      simp only [List.singleton_append, unquoteFrom_cons]
      rw [if_neg (by omega), if_neg h92, if_neg (by omega)]

theorem unquoteFrom_raw (pre rest : List Nat) (h : ∀ b ∈ pre, 128 ≤ b) :
    unquoteFrom (pre ++ rest) = (unquoteFrom rest).map (fun p => (pre ++ p.1, p.2)) := by
  induction pre with
  | nil => simp
  | cons b t ih =>
    have hb := h b (List.mem_cons_self _ _)
    have ht := ih (fun x hx => h x (List.mem_cons_of_mem _ hx))
    rw [List.cons_append, unquoteFrom_cons]
    rw [if_neg (by omega), if_neg (by omega), if_neg (by omega), ht]
    cases unquoteFrom rest <;> simp

theorem isCont_bounds {b : Nat} (h : isCont b = true) : 128 ≤ b ∧ b < 256 := by
  simp only [isCont, Bool.and_eq_true, decide_eq_true_eq] at h
  omega

theorem isSecond_bounds {b0 b1 : Nat} (h : isSecond b0 b1 = true) : 128 ≤ b1 ∧ b1 < 256 := by
  simp only [isSecond, Bool.and_eq_true, decide_eq_true_eq] at h
  obtain ⟨h1, h2⟩ := h
  constructor
  · split_ifs at h1 <;> omega
  · split_ifs at h2 <;> omega

theorem runeSize_spec (bs : List Nat) (h : runeSize bs ≠ 0) :
    2 ≤ runeSize bs ∧ runeSize bs ≤ bs.length ∧
      ∀ b ∈ bs.take (runeSize bs), 128 ≤ b ∧ b < 256 := by
  rcases bs with _ | ⟨b0, _ | ⟨b1, _ | ⟨b2, _ | ⟨b3, t⟩⟩⟩⟩
  · simp [runeSize] at h
  · simp [runeSize] at h
  all_goals
    simp only [runeSize] at h ⊢
    split_ifs at h ⊢ <;>
      first
      | exact absurd rfl h
      | (simp only [List.take, List.length, List.mem_cons, List.mem_nil_iff, or_false,
           forall_eq_or_imp, forall_eq]
         rename_i hr hs
         first
           | (have c1 := isCont_bounds hs
              omega)
           | (have c1 := isSecond_bounds hs.1
              have c2 := isCont_bounds hs.2
              omega)
           | (have c1 := isSecond_bounds hs.1
              have c2 := isCont_bounds hs.2.1
              have c3 := isCont_bounds hs.2.2
              omega))

theorem escapeByte_lt (b : Nat) (hb : b < 128) : ∀ x ∈ escapeByte b, x < 256 := by
  unfold escapeByte hexDigit
  intro x hx
  split_ifs at hx <;> simp at hx <;> omega

theorem quoteFuel_round_trip (f : Nat) : ∀ bs : List Nat, bs.length ≤ f →
    validFuel f bs = true → ∀ rest : List Nat,
      unquoteFrom (quoteFuel f bs ++ 34 :: rest) = some (bs, rest) ∧
        ∀ x ∈ quoteFuel f bs, x < 256 := by
  induction f with
  | zero =>
    intro bs hlen _ rest
    have : bs = [] := List.length_eq_zero.mp (by omega)
    subst this
    simp [quoteFuel, unquoteFrom_cons]
  | succ f ih =>
    intro bs hlen hvalid rest
    rcases bs with _ | ⟨b, t⟩
    · simp [quoteFuel, unquoteFrom_cons]
    · simp only [List.length_cons] at hlen
      by_cases hb : b < 128
      · have hv : validFuel f t = true := by simpa [validFuel, hb] using hvalid
        obtain ⟨h1, h2⟩ := ih t (by omega) hv rest
        simp only [quoteFuel, hb, if_true, List.append_assoc]
        refine ⟨?_, ?_⟩
        · rw [unquoteFrom_escapeByte b hb, h1]; rfl
        · intro x hx
          rcases List.mem_append.mp hx with hx | hx
          · exact escapeByte_lt b hb x hx
          · exact h2 x hx
      · simp only [validFuel, hb, if_false, Bool.and_eq_true, decide_eq_true_eq] at hvalid
        obtain ⟨hne, hv⟩ := hvalid
        obtain ⟨hsz2, hszlen, hbytes⟩ := runeSize_spec (b :: t) hne
        have hsplit : (b :: t).take (runeSize (b :: t)) ++ (b :: t).drop (runeSize (b :: t)) =
            b :: t := List.take_append_drop _ _
        have hdroplen : ((b :: t).drop (runeSize (b :: t))).length ≤ f := by
          rw [List.length_drop]
          simp only [List.length_cons] at hszlen ⊢
          omega
        obtain ⟨h1, h2⟩ := ih _ hdroplen hv rest
        by_cases hA : (b :: t).take 3 = [226, 128, 168]
        · rcases t with _ | ⟨b1, _ | ⟨b2, t2⟩⟩
          · simp at hA
          · simp at hA
          · simp only [List.take, List.cons.injEq, and_true] at hA
            obtain ⟨rfl, rfl, rfl⟩ := hA
            have hrs : runeSize (226 :: 128 :: 168 :: t2) = 3 := by
              simp [runeSize, isSecond, isCont]
            rw [hrs] at h1 h2
            simp only [List.drop] at h1 h2
            refine ⟨?_, ?_⟩
            · simp [quoteFuel, hrs, unquoteFrom_cons, hex4, hexValue, encodeRune, h1]
            · intro x hx
              simp only [quoteFuel, hrs] at hx
              simp at hx
              rcases hx with hx | hx | hx | hx | hx | hx | hx
              all_goals first | omega | exact h2 x hx
        · by_cases hB : (b :: t).take 3 = [226, 128, 169]
          · rcases t with _ | ⟨b1, _ | ⟨b2, t2⟩⟩
            · simp at hB
            · simp at hB
            · simp only [List.take, List.cons.injEq, and_true] at hB
              obtain ⟨rfl, rfl, rfl⟩ := hB
              have hrs : runeSize (226 :: 128 :: 169 :: t2) = 3 := by
                simp [runeSize, isSecond, isCont]
              rw [hrs] at h1 h2
              simp only [List.drop] at h1 h2
              refine ⟨?_, ?_⟩
              · simp [quoteFuel, hrs, unquoteFrom_cons, hex4, hexValue, encodeRune, h1]
              · intro x hx
                simp only [quoteFuel, hrs] at hx
                simp at hx
                rcases hx with hx | hx | hx | hx | hx | hx | hx
                all_goals first | omega | exact h2 x hx
          · have hq : quoteFuel (f + 1) (b :: t) =
                (b :: t).take (runeSize (b :: t)) ++
                  quoteFuel f ((b :: t).drop (runeSize (b :: t))) := by
              rw [quoteFuel, if_neg hb, if_neg hne, if_neg hA, if_neg hB]
            rw [hq]
            refine ⟨?_, ?_⟩
            · rw [List.append_assoc, unquoteFrom_raw _ _ (fun x hx => (hbytes x hx).1), h1]
              simp only [Option.map_some']
              rw [hsplit]
            · intro x hx
              rcases List.mem_append.mp hx with hx | hx
              · exact (hbytes x hx).2
              · exact h2 x hx

/-- Deserializing the serialization of a request whose two fields are valid
UTF-8 gives the request back. -/
theorem jsonUnmarshal_jsonMarshal (p : PostLobbyRequest) (hr : ValidUTF8 p.ReferenceID)
    (hn : ValidUTF8 p.LobbyName) : jsonUnmarshal (jsonMarshal p).1 = some p := by
  obtain ⟨r1, l1⟩ := quoteFuel_round_trip _ (goBytes p.ReferenceID) (Nat.le_refl _) hr
    (objectMiddle ++ (quoteFuel (goBytes p.LobbyName).length (goBytes p.LobbyName) ++ [34, 125]))
  obtain ⟨r2, l2⟩ := quoteFuel_round_trip _ (goBytes p.LobbyName) (Nat.le_refl _) hn [125]
  have hhead : ∀ x ∈ objectHead, x < 256 := by decide
  have hmid : ∀ x ∈ objectMiddle, x < 256 := by decide
  have hout : goBytes (jsonMarshal p).1 =
      objectHead ++ (quoteFuel (goBytes p.ReferenceID).length (goBytes p.ReferenceID) ++
        34 :: (objectMiddle ++
          (quoteFuel (goBytes p.LobbyName).length (goBytes p.LobbyName) ++ [34, 125]))) := by
    unfold jsonMarshal
    simp only
    rw [goBytes_ofGoBytes]
    · simp
    · intro x hx
      simp only [List.mem_append, List.mem_cons, List.mem_singleton, List.mem_nil_iff,
        or_false] at hx
      rcases hx with ((((h | h) | h) | h) | h) | h
      · exact hhead x h
      · exact l1 x h
      · omega
      · exact hmid x h
      · exact l2 x h
      · omega
  unfold jsonUnmarshal
  rw [hout, expectBytes_append]
  simp only
  rw [r1]
  simp only
  rw [expectBytes_append]
  simp only
  rw [show quoteFuel (goBytes p.LobbyName).length (goBytes p.LobbyName) ++ [34, 125] =
    quoteFuel (goBytes p.LobbyName).length (goBytes p.LobbyName) ++ 34 :: [125] from rfl, r2]
  simp only [ofGoBytes_goBytes]

theorem jsonMarshal_object : MarshalsObject jsonMarshal := by
  intro p _
  simp [jsonMarshal, ofGoBytes, objectHead, goBytes]

theorem createLobby_payload_stored {τ : Type}
    (launch : τ → String → τ × (String × Option Error))
    (marshal : PostLobbyRequest → String × Option Error) (params : PostLobbyRequest)
    (w : World (String → Option String) τ)
    (hc : (CreateLobby (kvManager launch marshal) params w).1 = "created") :
    (CreateLobby (kvManager launch marshal) params w).2.trace.contains
        (Call.set (lobbyKey params.ReferenceID) (marshal params).1) = true ∧
      (GetLobbyData (kvManager launch marshal) params.ReferenceID
        (CreateLobby (kvManager launch marshal) params w).2).1 = ((marshal params).1, none) ∧
      (StatusLobby (kvManager launch marshal) params.ReferenceID
        (CreateLobby (kvManager launch marshal) params w).2).1.2 = (marshal params).1 := by
  have hm := createLobby_kv_created launch marshal params w hc
  obtain ⟨hr, ht, _, _⟩ := createLobby_kv_marshal_ok launch marshal params w hm
  have hst : (CreateLobby (kvManager launch marshal) params w).2.redis
      (statusKey params.ReferenceID) = some LOBBY_CREATING := by rw [hr]; simp
  have hpl : (CreateLobby (kvManager launch marshal) params w).2.redis
      (lobbyKey params.ReferenceID) = some (marshal params).1 := by
    rw [hr]; simp [(statusKey_ne_lobbyKey_self params.ReferenceID).symm]
  refine ⟨?_, ?_, ?_⟩
  · rw [ht]; simp
  · rw [getLobbyData_kv, hpl]; rfl
  · rw [statusLobby_kv_present _ _ _ _ _ hst, hpl]; rfl

/-- C5, as the code has it: on the key-value store with `json.Marshal` as
the serializer, for every request whose two fields are valid UTF-8, after
`CreateLobby` returns `"created"`, `GetLobbyData` returns without error
exactly the serialized request `CreateLobby` wrote, `StatusLobby` returns
the same string as its data, and deserializing what `GetLobbyData` returns
gives the original request. -/
theorem createLobby_payload_round_trip {τ : Type}
    (launch : τ → String → τ × (String × Option Error)) (params : PostLobbyRequest)
    (w : World (String → Option String) τ)
    (hr : ValidUTF8 params.ReferenceID) (hn : ValidUTF8 params.LobbyName)
    (hc : (CreateLobby (kvManager launch jsonMarshal) params w).1 = "created") :
    (CreateLobby (kvManager launch jsonMarshal) params w).2.trace.contains
        (Call.set (lobbyKey params.ReferenceID) (jsonMarshal params).1) = true ∧
      (GetLobbyData (kvManager launch jsonMarshal) params.ReferenceID
        (CreateLobby (kvManager launch jsonMarshal) params w).2).1 =
        ((jsonMarshal params).1, none) ∧
      (StatusLobby (kvManager launch jsonMarshal) params.ReferenceID
        (CreateLobby (kvManager launch jsonMarshal) params w).2).1.2 = (jsonMarshal params).1 ∧
      jsonUnmarshal (GetLobbyData (kvManager launch jsonMarshal) params.ReferenceID
        (CreateLobby (kvManager launch jsonMarshal) params w).2).1.1 = some params := by
  obtain ⟨h1, h2, h3⟩ := createLobby_payload_stored launch jsonMarshal params w hc
  refine ⟨h1, h2, h3, ?_⟩
  rw [h2]
  exact jsonUnmarshal_jsonMarshal params hr hn

/-- Witness of C5: the scenario `abc123` / `duel-1`; what `GetLobbyData`
returns is the payload of the spec and deserializes to the request. -/
theorem createLobby_payload_round_trip_witness :
    (ValidUTF8 "abc123" ∧ ValidUTF8 "duel-1" ∧
      (CreateLobby (kvManager okLauncher jsonMarshal) ⟨"abc123", "duel-1"⟩
        (kvWorld emptyStore)).1 = "created") ∧
      (GetLobbyData (kvManager okLauncher jsonMarshal) "abc123"
        (CreateLobby (kvManager okLauncher jsonMarshal) ⟨"abc123", "duel-1"⟩
          (kvWorld emptyStore)).2).1 = ("\x7b\"referenceID\":\"abc123\",\"lobbyName\":\"duel-1\"\x7d", none) ∧
      jsonUnmarshal (GetLobbyData (kvManager okLauncher jsonMarshal) "abc123"
        (CreateLobby (kvManager okLauncher jsonMarshal) ⟨"abc123", "duel-1"⟩
          (kvWorld emptyStore)).2).1.1 = some ⟨"abc123", "duel-1"⟩ :=
  ⟨⟨by decide, by decide, by decide⟩,
    (createLobby_payload_round_trip okLauncher ⟨"abc123", "duel-1"⟩ (kvWorld emptyStore)
      (by decide) (by decide) (by decide)).2.1,
    (createLobby_payload_round_trip okLauncher ⟨"abc123", "duel-1"⟩ (kvWorld emptyStore)
      (by decide) (by decide) (by decide)).2.2.2⟩

/-- C5 as stated fails: for the request whose `ReferenceID` is the single
byte `0xFF`, which is not valid UTF-8, `CreateLobby` returns `"created"`,
`GetLobbyData` returns the stored text, in which the byte is written as the
escape of `U+FFFD`, and deserializing it gives the three bytes of `U+FFFD`
as `ReferenceID`, not the original byte. -/
theorem createLobby_payload_invalid_utf8_altered :
    ¬ ValidUTF8 (ofGoBytes [255]) ∧
      (CreateLobby (kvManager okLauncher jsonMarshal) ⟨ofGoBytes [255], "duel-1"⟩
        (kvWorld emptyStore)).1 = "created" ∧
      (GetLobbyData (kvManager okLauncher jsonMarshal) (ofGoBytes [255])
        (CreateLobby (kvManager okLauncher jsonMarshal) ⟨ofGoBytes [255], "duel-1"⟩
          (kvWorld emptyStore)).2).1 =
        ("\x7b\"referenceID\":\"\\ufffd\",\"lobbyName\":\"duel-1\"\x7d", none) ∧
      jsonUnmarshal (GetLobbyData (kvManager okLauncher jsonMarshal) (ofGoBytes [255])
        (CreateLobby (kvManager okLauncher jsonMarshal) ⟨ofGoBytes [255], "duel-1"⟩
          (kvWorld emptyStore)).2).1.1 = some ⟨ofGoBytes [239, 191, 189], "duel-1"⟩ ∧
      jsonUnmarshal (GetLobbyData (kvManager okLauncher jsonMarshal) (ofGoBytes [255])
        (CreateLobby (kvManager okLauncher jsonMarshal) ⟨ofGoBytes [255], "duel-1"⟩
          (kvWorld emptyStore)).2).1.1 ≠ some ⟨ofGoBytes [255], "duel-1"⟩ := by
  decide

/-! ## Reads -/

/-- C6. Idempotent read of an absent lobby: on the key-value store, whenever
no value is stored under `lobby:<referenceID>:status` (whatever is stored
under `lobby:<referenceID>`), `StatusLobby` returns `("not_found", "")`
after any number of earlier `StatusLobby` calls for that identity, and
those calls leave the store contents unchanged and issue no write. -/
theorem statusLobby_absent_stable {τ : Type}
    (launch : τ → String → τ × (String × Option Error))
    (marshal : PostLobbyRequest → String × Option Error) (referenceID : String)
    (w : World (String → Option String) τ)
    (habs : w.redis (statusKey referenceID) = none) (n : Nat) :
    (StatusLobby (kvManager launch marshal) referenceID
        (pollStatus (kvManager launch marshal) referenceID n w)).1 = ("not_found", "") ∧
      (pollStatus (kvManager launch marshal) referenceID n w).redis = w.redis ∧
      setCount (pollStatus (kvManager launch marshal) referenceID n w).trace =
        setCount w.trace := by
  induction n generalizing w with
  | zero => exact ⟨statusLobby_kv_absent _ _ _ _ habs, rfl, rfl⟩
  | succ n ih =>
    obtain ⟨hr, _, hs, _⟩ := statusLobby_kv_world launch marshal referenceID w
    have h := ih (StatusLobby (kvManager launch marshal) referenceID w).2 (by rw [hr]; exact habs)
    exact ⟨h.1, h.2.1.trans hr, h.2.2.trans hs⟩

/-- Witness of C6: a payload is stored under `lobby:abc123`, no status is;
the third call in a row still answers `("not_found", "")`. -/
theorem statusLobby_absent_stable_witness :
    (kvWorld (fun k => if k = "lobby:abc123" then some "\x7b\"referenceID\":\"abc123\",\"lobbyName\":\"duel-1\"\x7d" else none)).redis
        (statusKey "abc123") = none ∧
      ((StatusLobby (kvManager okLauncher sampleMarshal) "abc123"
          (pollStatus (kvManager okLauncher sampleMarshal) "abc123" 2
            (kvWorld (fun k => if k = "lobby:abc123" then some "\x7b\"referenceID\":\"abc123\",\"lobbyName\":\"duel-1\"\x7d" else none)))).1 =
          ("not_found", "") ∧
        (pollStatus (kvManager okLauncher sampleMarshal) "abc123" 2
            (kvWorld (fun k => if k = "lobby:abc123" then some "\x7b\"referenceID\":\"abc123\",\"lobbyName\":\"duel-1\"\x7d" else none))).redis =
          (kvWorld (fun k => if k = "lobby:abc123" then some "\x7b\"referenceID\":\"abc123\",\"lobbyName\":\"duel-1\"\x7d" else none)).redis ∧
        setCount (pollStatus (kvManager okLauncher sampleMarshal) "abc123" 2
            (kvWorld (fun k => if k = "lobby:abc123" then some "\x7b\"referenceID\":\"abc123\",\"lobbyName\":\"duel-1\"\x7d" else none))).trace =
          setCount (kvWorld (fun k => if k = "lobby:abc123" then some "\x7b\"referenceID\":\"abc123\",\"lobbyName\":\"duel-1\"\x7d" else none)).trace) :=
  ⟨by decide,
    statusLobby_absent_stable okLauncher sampleMarshal "abc123"
      (kvWorld (fun k => if k = "lobby:abc123" then some "\x7b\"referenceID\":\"abc123\",\"lobbyName\":\"duel-1\"\x7d" else none)) (by decide) 2⟩

/-- For every manager and world: what `StatusLobby` and `GetLobbyData` return
in terms of the reply of the store, including a stored value that is itself
the text `not_found`. -/
theorem notFound_iff_nil_or_literal {σ τ : Type} (l : LobbyManager σ τ)
    (referenceID : String) (w : World σ τ) :
    ((StatusLobby l referenceID w).1.1 = "not_found" ↔
        ((statusRead l referenceID w).2 = StringCmd.nil ∨
          (statusRead l referenceID w).2 = StringCmd.val "not_found")) ∧
      ((GetLobbyData l referenceID w).1 = ("not_found", none) ↔
        ((payloadRead l referenceID w).2 = StringCmd.nil ∨
          (payloadRead l referenceID w).2 = StringCmd.val "not_found")) ∧
      (∀ msg, (statusRead l referenceID w).2 = StringCmd.fail msg →
        (StatusLobby l referenceID w).1 = ("error", "")) ∧
      (∀ msg, (payloadRead l referenceID w).2 = StringCmd.fail msg →
        (GetLobbyData l referenceID w).1 = ("", some (Error.other msg))) := by
  unfold statusRead payloadRead
  refine ⟨?_, ?_, ?_, ?_⟩
  · rcases hs : (l.Redis.Get w.redis (statusKey referenceID)).2 with v | _ | msg <;>
      simp [StatusLobby, GetEntityInRedis, redisGet, hs, StringCmd.Result]
  · rcases hp : (l.Redis.Get w.redis (lobbyKey referenceID)).2 with v | _ | msg <;>
      simp [GetLobbyData, redisGet, hp, StringCmd.Result]
  · intro msg hs
    simp [StatusLobby, GetEntityInRedis, redisGet, hs, StringCmd.Result]
  · intro msg hp
    simp [GetLobbyData, redisGet, hp, StringCmd.Result]

/-- For every manager and world: a status read that succeeds with `s` makes
`StatusLobby` return `s` verbatim, with the payload or the empty string. -/
theorem statusLobby_status_verbatim {σ τ : Type} (l : LobbyManager σ τ)
    (referenceID s : String) (w : World σ τ)
    (hs : (statusRead l referenceID w).2 = StringCmd.val s) :
    (StatusLobby l referenceID w).1.1 = s ∧
      (∀ d, (payloadReadAfterStatus l referenceID w).2 = StringCmd.val d →
        (StatusLobby l referenceID w).1 = (s, d)) ∧
      (((payloadReadAfterStatus l referenceID w).2 = StringCmd.nil ∨
          ∃ msg, (payloadReadAfterStatus l referenceID w).2 = StringCmd.fail msg) →
        (StatusLobby l referenceID w).1 = (s, "")) ∧
      (s ≠ "error" → (StatusLobby l referenceID w).1.1 ≠ "error") := by
  unfold payloadReadAfterStatus
  unfold statusRead at hs ⊢
  have hres : (StatusLobby l referenceID w).1 =
      (s, (l.Redis.Get (l.Redis.Get w.redis (statusKey referenceID)).1
        (lobbyKey referenceID)).2.Result.1) := by
    simp [StatusLobby, GetEntityInRedis, redisGet, hs, StringCmd.Result]
  refine ⟨by rw [hres], ?_, ?_, ?_⟩
  · intro d hd
    rw [hres, hd]; rfl
  · rintro (hn | ⟨msg, hf⟩)
    · rw [hres, hn]; rfl
    · rw [hres, hf]; rfl
  · intro hne
    rw [hres]; exact hne

/-! ## Reads in the worlds the manager can bring about -/

theorem statusLobby_outage_contents {τ : Type} (launch : τ → String → τ × (String × Option Error))
    (marshal : PostLobbyRequest → String × Option Error) (referenceID : String)
    (w : World ((String → Option String) × Nat) τ) :
    (StatusLobby (outageManager launch marshal) referenceID w).2.redis.1 = w.redis.1 := by
  rcases w with ⟨⟨m, n⟩, e, t⟩
  rcases n with _ | _ | n
  · simp [StatusLobby, GetEntityInRedis, redisGet, outageManager, outageRedis, StringCmd.Result]
  · cases h : m (statusKey referenceID) <;>
      simp [StatusLobby, GetEntityInRedis, redisGet, outageManager, outageRedis,
        StringCmd.Result, h]
  · cases h : m (statusKey referenceID) <;>
      simp [StatusLobby, GetEntityInRedis, redisGet, outageManager, outageRedis,
        StringCmd.Result, h]

theorem getLobbyData_outage_contents {τ : Type} (launch : τ → String → τ × (String × Option Error))
    (marshal : PostLobbyRequest → String × Option Error) (referenceID : String)
    (w : World ((String → Option String) × Nat) τ) :
    (GetLobbyData (outageManager launch marshal) referenceID w).2.redis.1 = w.redis.1 := by
  rcases w with ⟨⟨m, n⟩, e, t⟩
  rcases n with _ | n
  · simp [GetLobbyData, redisGet, outageManager, outageRedis, StringCmd.Result]
  · cases h : m (lobbyKey referenceID) <;>
      simp [GetLobbyData, redisGet, outageManager, outageRedis, StringCmd.Result, h]

theorem createLobby_outage_contents {τ : Type} (launch : τ → String → τ × (String × Option Error))
    (marshal : PostLobbyRequest → String × Option Error) (params : PostLobbyRequest)
    (w : World ((String → Option String) × Nat) τ) (k : String) :
    (CreateLobby (outageManager launch marshal) params w).2.redis.1 k = w.redis.1 k ∨
      (CreateLobby (outageManager launch marshal) params w).2.redis.1 k = some LOBBY_CREATING ∨
      ((marshal params).2 = none ∧
        (CreateLobby (outageManager launch marshal) params w).2.redis.1 k =
          some (marshal params).1) := by
  rcases w with ⟨⟨m, n⟩, e, t⟩
  rcases hm : marshal params with ⟨data, _ | merr⟩
  · rcases n with _ | _ | n
    · simp [CreateLobby, CreateEntityInRedis, redisSet, outageManager, outageRedis, hm]
    · simp only [CreateLobby, CreateEntityInRedis, redisSet, outageManager, outageRedis, hm]
      by_cases hk : k = lobbyKey params.ReferenceID <;> simp [hk]
    · have hcases : (if k = statusKey params.ReferenceID then some LOBBY_CREATING
          else if k = lobbyKey params.ReferenceID then some data else m k) = m k ∨
          (if k = statusKey params.ReferenceID then some LOBBY_CREATING
          else if k = lobbyKey params.ReferenceID then some data else m k) =
            some LOBBY_CREATING ∨
          (if k = statusKey params.ReferenceID then some LOBBY_CREATING
          else if k = lobbyKey params.ReferenceID then some data else m k) = some data := by
        by_cases hs : k = statusKey params.ReferenceID
        · simp [hs]
        · by_cases hk : k = lobbyKey params.ReferenceID
          · rw [if_neg hs, if_pos hk]; exact Or.inr (Or.inr rfl)
          · rw [if_neg hs, if_neg hk]; exact Or.inl rfl
      rcases hl : (launch e params.ReferenceID).2 with ⟨arn, _ | lerr⟩ <;>
        simpa [CreateLobby, CreateEntityInRedis, redisSet, launchContainer, outageManager,
          outageRedis, hm, hl] using hcases
  · simp [CreateLobby, outageManager, hm]

theorem reachable_contents_written {τ : Type} (launch : τ → String → τ × (String × Option Error))
    (marshal : PostLobbyRequest → String × Option Error)
    (w : World ((String → Option String) × Nat) τ) (hreach : Reachable launch marshal w)
    (k v : String) (hv : w.redis.1 k = some v) : WrittenByManager marshal v := by
  induction hreach generalizing k v with
  | init n e => simp [emptyStore] at hv
  | outage w n _ ih => exact ih k v hv
  | create w params _ ih =>
    rcases createLobby_outage_contents launch marshal params w k with h | h | ⟨hm, h⟩
    · exact ih k v (h ▸ hv)
    · rw [h] at hv
      exact Or.inl (Option.some.inj hv).symm
    · rw [h] at hv
      exact Or.inr ⟨params, hm, (Option.some.inj hv).symm⟩
  | status w r _ ih =>
    rw [statusLobby_outage_contents] at hv
    exact ih k v hv
  | data w r _ ih =>
    rw [getLobbyData_outage_contents] at hv
    exact ih k v hv

theorem outage_get_val (m : String → Option String) (n : Nat) (k v : String)
    (h : (outageRedis.Get (m, n) k).2 = StringCmd.val v) : m k = some v := by
  rcases n with _ | n
  · simp [outageRedis] at h
  · cases hk : m k with
    | none => simp [outageRedis, hk] at h
    | some u =>
      simp [outageRedis, hk] at h
      rw [h]

theorem outage_get_contents (m : String → Option String) (n : Nat) (k : String) :
    (outageRedis.Get (m, n) k).1.1 = m := by
  rcases n with _ | n <;> simp [outageRedis]

theorem written_ne_sentinel (marshal : PostLobbyRequest → String × Option Error)
    (hobj : MarshalsObject marshal) (v : String) (hw : WrittenByManager marshal v) :
    v ≠ "not_found" ∧ v ≠ "error" := by
  rcases hw with h | ⟨p, hm, h⟩
  · subst h
    exact ⟨by decide, by decide⟩
  · have hb := hobj p hm
    rw [← h] at hb
    constructor
    · intro hv
      rw [hv] at hb
      exact absurd hb (by decide)
    · intro hv
      rw [hv] at hb
      exact absurd hb (by decide)

theorem sampleMarshal_object : MarshalsObject sampleMarshal := by
  intro p _
  simp [sampleMarshal, String.data_append]

/-- C7. A store failure is never reported as not found: in every world the
manager can bring about (store with outages, serializer producing JSON
objects), `StatusLobby` returns the status `"not_found"` exactly when the
store reports the status key absent, `GetLobbyData` returns
`("not_found", nil)` exactly when the store reports the payload key absent,
and when the read fails with another error `StatusLobby` returns
`("error", "")` and `GetLobbyData` returns that error with an empty
string. -/
theorem notFound_iff_key_absent {τ : Type} (launch : τ → String → τ × (String × Option Error))
    (marshal : PostLobbyRequest → String × Option Error) (hobj : MarshalsObject marshal)
    (w : World ((String → Option String) × Nat) τ) (hreach : Reachable launch marshal w)
    (referenceID : String) :
    ((StatusLobby (outageManager launch marshal) referenceID w).1.1 = "not_found" ↔
        (statusRead (outageManager launch marshal) referenceID w).2 = StringCmd.nil) ∧
      ((GetLobbyData (outageManager launch marshal) referenceID w).1 = ("not_found", none) ↔
        (payloadRead (outageManager launch marshal) referenceID w).2 = StringCmd.nil) ∧
      (∀ msg, (statusRead (outageManager launch marshal) referenceID w).2 = StringCmd.fail msg →
        (StatusLobby (outageManager launch marshal) referenceID w).1 = ("error", "")) ∧
      (∀ msg, (payloadRead (outageManager launch marshal) referenceID w).2 = StringCmd.fail msg →
        (GetLobbyData (outageManager launch marshal) referenceID w).1 =
          ("", some (Error.other msg))) := by
  obtain ⟨hs, hg, hsf, hgf⟩ :=
    notFound_iff_nil_or_literal (outageManager launch marshal) referenceID w
  have hno : ∀ k, (outageRedis.Get w.redis k).2 ≠ StringCmd.val "not_found" := by
    intro k hval
    have hstored := outage_get_val w.redis.1 w.redis.2 k "not_found" hval
    exact (written_ne_sentinel marshal hobj _
      (reachable_contents_written launch marshal w hreach k _ hstored)).1 rfl
  refine ⟨?_, ?_, hsf, hgf⟩
  · rw [hs]
    exact ⟨fun h => h.resolve_right (hno _), Or.inl⟩
  · rw [hg]
    exact ⟨fun h => h.resolve_right (hno _), Or.inl⟩

/-- Witness of C7: after `abc123` was created, the identity `zzz` is not
found. -/
theorem notFound_iff_key_absent_witness :
    MarshalsObject sampleMarshal ∧
      Reachable okLauncher sampleMarshal
        (CreateLobby (outageManager okLauncher sampleMarshal) ⟨"abc123", "duel-1"⟩
          (outageWorld emptyStore 5)).2 ∧
      (StatusLobby (outageManager okLauncher sampleMarshal) "zzz"
        (CreateLobby (outageManager okLauncher sampleMarshal) ⟨"abc123", "duel-1"⟩
          (outageWorld emptyStore 5)).2).1.1 = "not_found" :=
  ⟨sampleMarshal_object, Reachable.create _ _ (Reachable.init 5 ()),
    (notFound_iff_key_absent okLauncher sampleMarshal sampleMarshal_object
      (CreateLobby (outageManager okLauncher sampleMarshal) ⟨"abc123", "duel-1"⟩
        (outageWorld emptyStore 5)).2
      (Reachable.create _ _ (Reachable.init 5 ())) "zzz").1.mpr (by decide)⟩

/-- C8. Degraded payload fetch: in every world the manager can bring about
(store with outages, serializer producing JSON objects), when the status
read succeeds with value `s`, `StatusLobby` returns the status `s` whatever
the payload read gives, never the status `"error"`; the result is `(s, d)`
for a stored payload `d` and `(s, "")` when the payload read fails or the
payload key is absent. -/
theorem statusLobby_degraded_payload {τ : Type} (launch : τ → String → τ × (String × Option Error))
    (marshal : PostLobbyRequest → String × Option Error) (hobj : MarshalsObject marshal)
    (w : World ((String → Option String) × Nat) τ) (hreach : Reachable launch marshal w)
    (referenceID s : String)
    (hs : (statusRead (outageManager launch marshal) referenceID w).2 = StringCmd.val s) :
    (StatusLobby (outageManager launch marshal) referenceID w).1.1 = s ∧
      (StatusLobby (outageManager launch marshal) referenceID w).1.1 ≠ "error" ∧
      (((payloadReadAfterStatus (outageManager launch marshal) referenceID w).2 =
            StringCmd.nil ∨
          ∃ msg, (payloadReadAfterStatus (outageManager launch marshal) referenceID w).2 =
            StringCmd.fail msg) →
        (StatusLobby (outageManager launch marshal) referenceID w).1 = (s, "")) ∧
      (∀ d, (payloadReadAfterStatus (outageManager launch marshal) referenceID w).2 =
          StringCmd.val d →
        (StatusLobby (outageManager launch marshal) referenceID w).1 = (s, d)) := by
  obtain ⟨h1, h2, h3, h4⟩ :=
    statusLobby_status_verbatim (outageManager launch marshal) referenceID s w hs
  have hstored := outage_get_val w.redis.1 w.redis.2 (statusKey referenceID) s hs
  have hne := (written_ne_sentinel marshal hobj _
    (reachable_contents_written launch marshal w hreach _ _ hstored)).2
  exact ⟨h1, h4 hne, h3, h2⟩

/-- Witness of C8: `abc123` was created on a store that then serves one more
command; the status read is served and the payload read fails. -/
theorem statusLobby_degraded_payload_witness :
    (statusRead (outageManager okLauncher sampleMarshal) "abc123"
        (CreateLobby (outageManager okLauncher sampleMarshal) ⟨"abc123", "duel-1"⟩
          (outageWorld emptyStore 3)).2).2 = StringCmd.val "creating" ∧
      (payloadReadAfterStatus (outageManager okLauncher sampleMarshal) "abc123"
        (CreateLobby (outageManager okLauncher sampleMarshal) ⟨"abc123", "duel-1"⟩
          (outageWorld emptyStore 3)).2).2 = StringCmd.fail "store unavailable" ∧
      (StatusLobby (outageManager okLauncher sampleMarshal) "abc123"
        (CreateLobby (outageManager okLauncher sampleMarshal) ⟨"abc123", "duel-1"⟩
          (outageWorld emptyStore 3)).2).1 = ("creating", "") :=
  ⟨by decide, by decide,
    (statusLobby_degraded_payload okLauncher sampleMarshal sampleMarshal_object
      (CreateLobby (outageManager okLauncher sampleMarshal) ⟨"abc123", "duel-1"⟩
        (outageWorld emptyStore 3)).2
      (Reachable.create _ _ (Reachable.init 3 ())) "abc123" "creating" (by decide)).2.2.1
      (Or.inr ⟨"store unavailable", by decide⟩)⟩

/-! ## Validation and isolation -/

/-- C9, as the code has it: `CreateLobby` does not inspect the reference
identity.  For a request whose `ReferenceID` is empty, when serialization,
both writes and the launch succeed, it returns `"created"` after writing the
payload under `lobby:`, the status under `lobby::status`, and launching with
the empty identity. -/
theorem createLobby_empty_referenceID_not_rejected {σ τ : Type} (l : LobbyManager σ τ)
    (params : PostLobbyRequest) (w : World σ τ)
    (hempty : params.ReferenceID = "")
    (hm : (l.Marshal params).2 = none)
    (h1 : (payloadWrite l params w).2 = none)
    (h2 : (statusWrite l params w).2 = none)
    (h3 : (l.LaunchContainer w.ecs params.ReferenceID).2.2 = none) :
    (CreateLobby l params w).1 = "created" ∧
      (CreateLobby l params w).2.trace =
        w.trace ++ [Call.set "lobby:" (l.Marshal params).1,
          Call.set "lobby::status" LOBBY_CREATING, Call.launch ""] := by
  unfold statusWrite payloadWrite at h2
  unfold payloadWrite at h1
  rcases hm' : l.Marshal params with ⟨data, merr⟩
  rw [hm'] at hm h1 h2
  simp only at hm h1 h2
  subst hm
  rcases hl : (l.LaunchContainer w.ecs params.ReferenceID).2 with ⟨arn, lerr⟩
  rw [hl] at h3
  simp only at h3
  subst h3
  have hk1 : lobbyKey params.ReferenceID = "lobby:" := by rw [hempty]; decide
  have hk2 : statusKey params.ReferenceID = "lobby::status" := by rw [hempty]; decide
  simp only [CreateLobby, CreateEntityInRedis, redisSet, launchContainer, hm', h1, h2, hl]
  rw [hk1, hk2, hempty]
  simp

/-- Witness of C9: the empty identity on the key-value store with a
launcher that succeeds. -/
theorem createLobby_empty_referenceID_not_rejected_witness :
    (CreateLobby (kvManager okLauncher sampleMarshal) ⟨"", "duel-1"⟩
        (kvWorld emptyStore)).1 = "created" ∧
      (CreateLobby (kvManager okLauncher sampleMarshal) ⟨"", "duel-1"⟩
        (kvWorld emptyStore)).2.trace =
        (kvWorld emptyStore).trace ++
          [Call.set "lobby:" ((kvManager okLauncher sampleMarshal).Marshal ⟨"", "duel-1"⟩).1,
           Call.set "lobby::status" LOBBY_CREATING, Call.launch ""] :=
  createLobby_empty_referenceID_not_rejected (kvManager okLauncher sampleMarshal)
    ⟨"", "duel-1"⟩ (kvWorld emptyStore) rfl (by decide) (by decide) (by decide) (by decide)

/-- C9 as stated fails: for the request with the empty identity,
`CreateLobby` returns `"created"`, not `"error"`, having issued two store
writes and one launch. -/
theorem createLobby_empty_referenceID_created :
    (CreateLobby (kvManager okLauncher sampleMarshal) ⟨"", "duel-1"⟩
        (kvWorld emptyStore)).1 = "created" ∧
      (CreateLobby (kvManager okLauncher sampleMarshal) ⟨"", "duel-1"⟩
        (kvWorld emptyStore)).1 ≠ "error" ∧
      setCount (CreateLobby (kvManager okLauncher sampleMarshal) ⟨"", "duel-1"⟩
        (kvWorld emptyStore)).2.trace = 2 ∧
      launchCount (CreateLobby (kvManager okLauncher sampleMarshal) ⟨"", "duel-1"⟩
        (kvWorld emptyStore)).2.trace = 1 := by
  decide

/-- C10, as the code has it: on the key-value store, for identities `a` and
`b` with `a ≠ b`, `b ≠ a ++ ":status"` and `a ≠ b ++ ":status"`, the two keys
of `a` differ from the two keys of `b`, `CreateLobby` for `b` leaves every
key other than the two keys of `b` as it was, and `StatusLobby a` and
`GetLobbyData a` return the same before and after the call. -/
theorem createLobby_isolated_between_identities {τ : Type}
    (launch : τ → String → τ × (String × Option Error))
    (marshal : PostLobbyRequest → String × Option Error) (a : String)
    (params : PostLobbyRequest) (w : World (String → Option String) τ)
    (hab : a ≠ params.ReferenceID)
    (hsuf : params.ReferenceID ≠ a ++ ":status")
    (hsuf' : a ≠ params.ReferenceID ++ ":status") :
    (lobbyKey a ≠ lobbyKey params.ReferenceID ∧ lobbyKey a ≠ statusKey params.ReferenceID ∧
        statusKey a ≠ lobbyKey params.ReferenceID ∧
        statusKey a ≠ statusKey params.ReferenceID) ∧
      (∀ k, k ≠ lobbyKey params.ReferenceID → k ≠ statusKey params.ReferenceID →
        (CreateLobby (kvManager launch marshal) params w).2.redis k = w.redis k) ∧
      (StatusLobby (kvManager launch marshal) a
          (CreateLobby (kvManager launch marshal) params w).2).1 =
        (StatusLobby (kvManager launch marshal) a w).1 ∧
      (GetLobbyData (kvManager launch marshal) a
          (CreateLobby (kvManager launch marshal) params w).2).1 =
        (GetLobbyData (kvManager launch marshal) a w).1 := by
  have k1 : lobbyKey a ≠ lobbyKey params.ReferenceID := fun h => hab (lobbyKey_inj.mp h)
  have k2 : lobbyKey a ≠ statusKey params.ReferenceID :=
    fun h => hsuf' (statusKey_eq_lobbyKey.mp h.symm)
  have k3 : statusKey a ≠ lobbyKey params.ReferenceID :=
    fun h => hsuf (statusKey_eq_lobbyKey.mp h)
  have k4 : statusKey a ≠ statusKey params.ReferenceID := fun h => hab (statusKey_inj.mp h)
  have hp := createLobby_kv_frame launch marshal params w (lobbyKey a) k1 k2
  have hs := createLobby_kv_frame launch marshal params w (statusKey a) k3 k4
  refine ⟨⟨k1, k2, k3, k4⟩, fun k h1 h2 => createLobby_kv_frame launch marshal params w k h1 h2,
    statusLobby_kv_congr launch marshal a w _ hs hp, ?_⟩
  rw [getLobbyData_kv, getLobbyData_kv, hp]

/-- Witness of C10: creating `duel-2` leaves what is read for `abc123`. -/
theorem createLobby_isolated_between_identities_witness :
    (StatusLobby (kvManager okLauncher sampleMarshal) "abc123"
        (CreateLobby (kvManager okLauncher sampleMarshal) ⟨"xyz789", "duel-2"⟩
          (CreateLobby (kvManager okLauncher sampleMarshal) ⟨"abc123", "duel-1"⟩
            (kvWorld emptyStore)).2).2).1 =
      (StatusLobby (kvManager okLauncher sampleMarshal) "abc123"
        (CreateLobby (kvManager okLauncher sampleMarshal) ⟨"abc123", "duel-1"⟩
          (kvWorld emptyStore)).2).1 :=
  (createLobby_isolated_between_identities okLauncher sampleMarshal "abc123"
    ⟨"xyz789", "duel-2"⟩
    (CreateLobby (kvManager okLauncher sampleMarshal) ⟨"abc123", "duel-1"⟩
      (kvWorld emptyStore)).2 (by decide) (by decide) (by decide)).2.2.1

/-- C10 as stated fails: `x` and `x:status` are distinct and non-empty, the
status key of `x` is the payload key of `x:status`, and after `CreateLobby`
for `x:status` the status `StatusLobby` returns for `x` is no longer
`creating` but the payload of the other lobby. -/
theorem createLobby_clobbers_status_of_other_identity :
    ("x" : String) ≠ "x:status" ∧ ("x" : String) ≠ "" ∧ ("x:status" : String) ≠ "" ∧
      statusKey "x" = lobbyKey "x:status" ∧
      (StatusLobby (kvManager okLauncher sampleMarshal) "x"
        (CreateLobby (kvManager okLauncher sampleMarshal) ⟨"x", "duel-1"⟩
          (kvWorld emptyStore)).2).1.1 = "creating" ∧
      (StatusLobby (kvManager okLauncher sampleMarshal) "x"
        (CreateLobby (kvManager okLauncher sampleMarshal) ⟨"x:status", "duel-2"⟩
          (CreateLobby (kvManager okLauncher sampleMarshal) ⟨"x", "duel-1"⟩
            (kvWorld emptyStore)).2).2).1.1 =
        "\x7b\"referenceID\":\"x:status\",\"lobbyName\":\"duel-2\"\x7d" ∧
      (StatusLobby (kvManager okLauncher sampleMarshal) "x"
        (CreateLobby (kvManager okLauncher sampleMarshal) ⟨"x:status", "duel-2"⟩
          (CreateLobby (kvManager okLauncher sampleMarshal) ⟨"x", "duel-1"⟩
            (kvWorld emptyStore)).2).2).1 ≠
        (StatusLobby (kvManager okLauncher sampleMarshal) "x"
          (CreateLobby (kvManager okLauncher sampleMarshal) ⟨"x", "duel-1"⟩
            (kvWorld emptyStore)).2).1 := by
  decide

end Lobby
